import Mathlib

/-!
Shallow embedding of `src/libmosquitto-sys/pthread.h`, a zero-dependency
pthread compatibility header targeting the Win32 API.

Modelling conventions:
* Opaque pointers and `HANDLE` values are `Nat`; `0` is `NULL`.
* `DWORD` is a 32-bit unsigned value; the C cast `(DWORD)x` is `x % 2^32`.
* The outcomes of native Win32 calls (`CreateEventA`, `CreateThread`,
  `WaitForSingleObject`, `GetCurrentThread`, `GetExitCodeThread`,
  `CreateMutexA`, `ReleaseMutex`, `CloseHandle`) are inputs supplied by an
  environment record, since they are decided by the OS, not by this code.
* Each embedded function additionally returns the list of native calls it
  performs, in program order, so that statements about which native
  primitives were (or were not) invoked can be made precise.
-/

namespace PthreadCompat

/-- Win32 constant: successful `WaitForSingleObject` outcome. -/
def WAIT_OBJECT_0 : Nat := 0

/-- errno constant returned on allocation failure. -/
def ENOMEM : Nat := 12

/-- errno constant returned on an unexpected wait failure. -/
def EINVAL : Nat := 22

/-- errno constant returned on self-join. -/
def EDEADLK : Nat := 36

/-- errno constant returned by the cancellation stub. -/
def ENOSYS : Nat := 40

/-- Width of a Win32 `DWORD`: thread exit codes are 32-bit. -/
def DWORD_SIZE : Nat := 2 ^ 32

/-- The native Win32 calls the header can perform; handle-taking calls
record the handle value they were given. -/
inductive NativeCall where
  | getCurrentThread : NativeCall
  | createEventA : NativeCall
  | createThread : NativeCall
  | setEvent (h : Nat) : NativeCall
  | waitForSingleObject (h : Nat) : NativeCall
  | getExitCodeThread (h : Nat) : NativeCall
  | closeHandle (h : Nat) : NativeCall
  | createMutexA : NativeCall
  | releaseMutex (h : Nat) : NativeCall

/-- `pthread_self`: returns `GetCurrentThread()`; the calling thread's
native identity is supplied as the argument. -/
def pthread_self (currentThread : Nat) : Nat :=
  currentThread

/-- `pthread_equal`: the C expression `t1 == t2`, yielding `1` or `0`. -/
def pthread_equal (t1 t2 : Nat) : Nat :=
  if t1 = t2 then 1 else 0

/-- `struct pthread_create_trampoline_info`: the start routine, its
argument, and the handshake event handle. The start routine is modelled as
a function on opaque pointer values. -/
structure pthread_create_trampoline_info where
  start_routine : Nat → Nat
  arg : Nat
  event : Nat

/-- `pthread_create_trampoline`: copies the info record, signals the
handshake event, then runs `start_routine(arg)` and returns its result cast
to `DWORD` (the thread exit code). First component: the exit code; second:
the native calls the trampoline performs before and while computing it. -/
def pthread_create_trampoline (info : pthread_create_trampoline_info) :
    Nat × List NativeCall :=
  (info.start_routine info.arg % DWORD_SIZE, [NativeCall.setEvent info.event])

/-- Native-call outcomes observed during one `pthread_create` call. -/
structure CreateEnv where
  /-- Result of `CreateEventA(NULL, FALSE, FALSE, NULL)`; `0` = failure. -/
  createEventResult : Nat
  /-- Result of `CreateThread(...)`; `0` = failure. -/
  createThreadResult : Nat
  /-- Result of `WaitForSingleObject(info.event, INFINITE)`. -/
  waitResult : Nat

/-- Observable outcome of one `pthread_create` call. -/
structure CreateOutcome where
  /-- The `int` return value of `pthread_create`. -/
  ret : Nat
  /-- Final value of `*thread`, the caller's out-parameter. -/
  threadOut : Nat
  /-- The trampoline context (`info`) passed by address to `CreateThread`. -/
  info : pthread_create_trampoline_info
  /-- Native calls performed by `pthread_create` itself, in order. -/
  calls : List NativeCall

/-- `pthread_create`: builds `info` from the routine, the argument and the
(unchecked) `CreateEventA` result, unconditionally stores the `CreateThread`
result into `*thread`, waits on the event, closes it, and finally returns
`0` if `*thread` is non-null, `ENOMEM` otherwise. The `attr` parameter of
the C function is ignored by the source and omitted here. -/
def pthread_create (env : CreateEnv) (start_routine : Nat → Nat) (arg : Nat) :
    CreateOutcome :=
  let info : pthread_create_trampoline_info :=
    { start_routine := start_routine, arg := arg, event := env.createEventResult }
  let thread : Nat := env.createThreadResult
  { ret := if thread ≠ 0 then 0 else ENOMEM
    threadOut := thread
    info := info
    calls := [NativeCall.createEventA, NativeCall.createThread,
      NativeCall.waitForSingleObject info.event, NativeCall.closeHandle info.event] }

/-- Native-call outcomes observed during one `pthread_join` call. -/
structure JoinEnv where
  /-- Result of `GetCurrentThread()` in the calling thread. -/
  currentThread : Nat
  /-- The `DWORD` status reported by `GetExitCodeThread` for the target. -/
  exitCode : Nat

/-- Observable outcome of one `pthread_join` call. -/
structure JoinOutcome where
  /-- The `int` return value of `pthread_join`. -/
  ret : Nat
  /-- The value stored through `retval` (`none` when nothing was stored,
  either because `retval` was `NULL` or the self-join branch was taken). -/
  retval : Option Nat
  /-- Native calls performed, in order. -/
  calls : List NativeCall

/-- `pthread_join`: compares `thread` with `GetCurrentThread()` and returns
`EDEADLK` at once on equality; otherwise waits on the thread handle, reads
the exit code into `*retval` only when `retval` is non-null
(`retvalProvided`), closes the handle and returns `0`. -/
def pthread_join (env : JoinEnv) (thread : Nat) (retvalProvided : Bool) :
    JoinOutcome :=
  let me := env.currentThread
  if thread = me then
    { ret := EDEADLK, retval := none, calls := [NativeCall.getCurrentThread] }
  else
    { ret := 0
      retval := if retvalProvided then some env.exitCode else none
      calls := [NativeCall.getCurrentThread, NativeCall.waitForSingleObject thread]
        ++ (if retvalProvided then [NativeCall.getExitCodeThread thread] else [])
        ++ [NativeCall.closeHandle thread] }

/-- `pthread_cancel`: unconditionally `ENOSYS`; no native call touches the
target thread. -/
def pthread_cancel (_thread : Nat) : Nat × List NativeCall :=
  (ENOSYS, [])

/-- Observable outcome of one `pthread_mutex_init` call. -/
structure MutexInitOutcome where
  /-- The `int` return value of `pthread_mutex_init`. -/
  ret : Nat
  /-- Final value of `*mutex`, the caller's out-parameter. -/
  mutexOut : Nat
  /-- Native calls performed, in order. -/
  calls : List NativeCall

/-- `pthread_mutex_init`: stores the `CreateMutexA` result (supplied as
`createMutexResult`; `0` = failure) into `*mutex`, then returns `0` if it is
non-null and `ENOMEM` otherwise. The `attr` parameter is ignored by the
source and omitted here. -/
def pthread_mutex_init (createMutexResult : Nat) : MutexInitOutcome :=
  { ret := if createMutexResult ≠ 0 then 0 else ENOMEM
    mutexOut := createMutexResult
    calls := [NativeCall.createMutexA] }

/-- `pthread_mutex_lock`: one `WaitForSingleObject(mutex, INFINITE)` whose
outcome is `waitResult`; returns `0` exactly on `WAIT_OBJECT_0`, `EINVAL`
on anything else. -/
def pthread_mutex_lock (mutex : Nat) (waitResult : Nat) : Nat × List NativeCall :=
  (if waitResult = WAIT_OBJECT_0 then 0 else EINVAL,
    [NativeCall.waitForSingleObject mutex])

/-- `pthread_mutex_unlock`: calls `ReleaseMutex(mutex)` discarding its
result (`releaseResult`, `true` = native success) and returns `0`. -/
def pthread_mutex_unlock (mutex : Nat) (_releaseResult : Bool) :
    Nat × List NativeCall :=
  (0, [NativeCall.releaseMutex mutex])

/-- `pthread_mutex_destroy`: calls `CloseHandle` discarding its result
(`closeResult`, `true` = native success) and returns `0`. (The source
passes the pointer `mutex` itself, not `*mutex`, to `CloseHandle`; the
handle value actually passed is the `handleArg` parameter.) -/
def pthread_mutex_destroy (handleArg : Nat) (_closeResult : Bool) :
    Nat × List NativeCall :=
  (0, [NativeCall.closeHandle handleArg])

/-! ## Claims -/

theorem pthread_join_of_self (env : JoinEnv) (thread : Nat) (r : Bool)
    (h : thread = env.currentThread) :
    pthread_join env thread r
      = { ret := EDEADLK, retval := none,
          calls := [NativeCall.getCurrentThread] } :=
  if_pos h

theorem pthread_join_of_ne (env : JoinEnv) (thread : Nat) (r : Bool)
    (h : ¬ thread = env.currentThread) :
    pthread_join env thread r
      = { ret := 0
          retval := if r then some env.exitCode else none
          calls := [NativeCall.getCurrentThread, NativeCall.waitForSingleObject thread]
            ++ (if r then [NativeCall.getExitCodeThread thread] else [])
            ++ [NativeCall.closeHandle thread] } :=
  if_neg h

/-- C1 (counterexample to the claim as stated): a start routine returning
`2^32` (representable as a 64-bit pointer) round-trips through the
trampoline's `DWORD` exit code and `pthread_join` as `0`, not `2^32`: the
joined exit value is not the value the routine returned. -/
theorem C1_counterexample :
    (pthread_join ⟨7, (pthread_create_trampoline
        (pthread_create ⟨5, 3, 0⟩ (fun _ => 4294967296) 11).info).1⟩ 9 true).retval
      = some 0
    ∧ (4294967296 : Nat) ≠ 0 :=
  ⟨rfl, by decide⟩

/-- C1 (amended): for a thread created via `pthread_create` with routine
`R` and argument `A`, the trampoline invokes `R` on exactly `A`, and a
successful `pthread_join` (target distinct from the caller, non-null
`retval`) delivers `R A` reduced modulo `2^32`, the width of the native
`DWORD` exit code; the value is delivered exactly whenever it fits in 32
bits (always the case on a 32-bit platform). -/
theorem C1_create_join_roundtrip (env : CreateEnv) (R : Nat → Nat) (A : Nat)
    (me thread : Nat) (hne : thread ≠ me) :
    (pthread_join ⟨me, (pthread_create_trampoline (pthread_create env R A).info).1⟩
        thread true).retval = some (R A % DWORD_SIZE)
    ∧ (R A < DWORD_SIZE →
      (pthread_join ⟨me, (pthread_create_trampoline (pthread_create env R A).info).1⟩
        thread true).retval = some (R A)) := by
  constructor
  · rw [pthread_join_of_ne
      ⟨me, (pthread_create_trampoline (pthread_create env R A).info).1⟩ thread true hne]
    rfl
  · intro hlt
    rw [pthread_join_of_ne
      ⟨me, (pthread_create_trampoline (pthread_create env R A).info).1⟩ thread true hne]
    show some (R A % DWORD_SIZE) = some (R A)
    rw [Nat.mod_eq_of_lt hlt]

/-- C1 witness: concrete instance of the amended round-trip theorem. -/
theorem C1_witness :
    (pthread_join ⟨7, (pthread_create_trampoline
        (pthread_create ⟨5, 3, 0⟩ (fun n => n + 4) 11).info).1⟩ 9 true).retval
      = some 15 :=
  (C1_create_join_roundtrip ⟨5, 3, 0⟩ (fun n => n + 4) 11 7 9 (by decide)).2
    (by decide)

/-- C2: the code does not check the handshake-event creation result. In an
environment where `CreateEventA` fails (returns `NULL = 0`) while
`CreateThread` succeeds (handle `3`), `pthread_create` still invokes the
native thread-creation primitive and returns `0` (success), contradicting
the claim that it must fail without invoking the native primitive. -/
theorem C2_event_failure_not_detected :
    (pthread_create ⟨0, 3, 0⟩ (fun n => n) 0).ret = 0
    ∧ NativeCall.createThread ∈ (pthread_create ⟨0, 3, 0⟩ (fun n => n) 0).calls :=
  ⟨rfl, List.Mem.tail _ (List.Mem.head _)⟩

/-- C3: when the handle passed to `pthread_join` equals the calling
thread's identity (`pthread_self`), join returns `EDEADLK` and the only
native call performed is `GetCurrentThread` — in particular no wait of any
kind takes place. -/
theorem C3_self_join_deadlock (env : JoinEnv) (thread : Nat) (r : Bool)
    (h : thread = pthread_self env.currentThread) :
    (pthread_join env thread r).ret = EDEADLK
    ∧ (pthread_join env thread r).calls = [NativeCall.getCurrentThread] := by
  rw [pthread_join_of_self env thread r h]
  exact ⟨rfl, rfl⟩

/-- C3 witness: joining the calling thread's own handle from that thread. -/
theorem C3_witness :
    (pthread_join ⟨4, 0⟩ (pthread_self 4) true).ret = EDEADLK
    ∧ (pthread_join ⟨4, 0⟩ (pthread_self 4) true).calls
      = [NativeCall.getCurrentThread] :=
  C3_self_join_deadlock ⟨4, 0⟩ (pthread_self 4) true rfl

/-- C4: `pthread_create` returns `ENOMEM` exactly when `CreateThread`
returned the null handle, and `0` (success) otherwise; on the null outcome
the stored thread handle is null, so no thread was started. -/
theorem C4_create_enomem_on_null (env : CreateEnv) (R : Nat → Nat) (A : Nat) :
    (pthread_create env R A).ret
      = (if env.createThreadResult = 0 then ENOMEM else 0)
    ∧ (env.createThreadResult = 0 → (pthread_create env R A).threadOut = 0) := by
  constructor
  · show (if env.createThreadResult ≠ 0 then 0 else ENOMEM)
      = if env.createThreadResult = 0 then ENOMEM else 0
    cases Nat.decEq env.createThreadResult 0 with
    | isTrue h => rw [if_neg (fun hn => hn h), if_pos h]
    | isFalse h => rw [if_pos h, if_neg h]
  · exact fun h => h

/-- C4 witness: creation with a null `CreateThread` outcome. -/
theorem C4_witness :
    (pthread_create ⟨5, 0, 0⟩ (fun n => n) 0).ret = ENOMEM
    ∧ (pthread_create ⟨5, 0, 0⟩ (fun n => n) 0).threadOut = 0 :=
  ⟨((C4_create_enomem_on_null ⟨5, 0, 0⟩ (fun n => n) 0).1).trans (if_pos rfl),
   (C4_create_enomem_on_null ⟨5, 0, 0⟩ (fun n => n) 0).2 rfl⟩

/-- C5: `pthread_mutex_lock` returns `0` iff the single underlying wait
reported `WAIT_OBJECT_0`, returns `EINVAL` iff it reported anything else,
and performs exactly one native wait call (no internal retry). -/
theorem C5_lock_wait_outcome (mutex waitResult : Nat) :
    ((pthread_mutex_lock mutex waitResult).1 = 0 ↔ waitResult = WAIT_OBJECT_0)
    ∧ ((pthread_mutex_lock mutex waitResult).1 = EINVAL
        ↔ waitResult ≠ WAIT_OBJECT_0)
    ∧ (pthread_mutex_lock mutex waitResult).2
        = [NativeCall.waitForSingleObject mutex] := by
  have hret : (pthread_mutex_lock mutex waitResult).1
      = if waitResult = WAIT_OBJECT_0 then 0 else EINVAL := rfl
  cases Nat.decEq waitResult WAIT_OBJECT_0 with
  | isTrue h =>
    rw [hret, if_pos h]
    exact ⟨iff_of_true rfl h, iff_of_false (by decide) (fun hn => hn h), rfl⟩
  | isFalse h =>
    rw [hret, if_neg h]
    exact ⟨iff_of_false (by decide) h, iff_of_true rfl h, rfl⟩

/-- C5 witness: one successful and one failed wait, concretely. -/
theorem C5_witness :
    (pthread_mutex_lock 3 WAIT_OBJECT_0).1 = 0
    ∧ (pthread_mutex_lock 3 1).1 = EINVAL :=
  ⟨((C5_lock_wait_outcome 3 WAIT_OBJECT_0).1).mpr rfl,
   ((C5_lock_wait_outcome 3 1).2.1).mpr (by decide)⟩

/-- C6: `pthread_mutex_init` returns `ENOMEM` when the native mutex
allocation failed (null handle), in which case the out-parameter holds the
null handle (no usable mutex); on a successful allocation it returns `0`. -/
theorem C6_init_enomem_on_null (createMutexResult : Nat) :
    (pthread_mutex_init createMutexResult).ret
      = (if createMutexResult = 0 then ENOMEM else 0)
    ∧ (pthread_mutex_init createMutexResult).mutexOut = createMutexResult := by
  constructor
  · show (if createMutexResult ≠ 0 then 0 else ENOMEM)
      = if createMutexResult = 0 then ENOMEM else 0
    cases Nat.decEq createMutexResult 0 with
    | isTrue h => rw [if_neg (fun hn => hn h), if_pos h]
    | isFalse h => rw [if_pos h, if_neg h]
  · rfl

/-- C7: `pthread_mutex_unlock` and `pthread_mutex_destroy` return `0`
whatever the outcome of the underlying native `ReleaseMutex` / `CloseHandle`
call: the native result is taken as input and never surfaces. -/
theorem C7_unlock_destroy_always_succeed (m h : Nat) (rel cls : Bool) :
    (pthread_mutex_unlock m rel).1 = 0 ∧ (pthread_mutex_destroy h cls).1 = 0 :=
  ⟨rfl, rfl⟩

/-- C8: `pthread_equal` is a pure comparison of handle values: it is
reflexive (`pthread_equal h h = 1`, i.e. true) and symmetric, and it
decides value equality of the two handles. -/
theorem C8_equal_refl_symm (h a b : Nat) :
    pthread_equal h h = 1
    ∧ pthread_equal a b = pthread_equal b a
    ∧ (pthread_equal a b = 1 ↔ a = b) := by
  have he : ∀ x y : Nat, pthread_equal x y = if x = y then 1 else 0 :=
    fun _ _ => rfl
  refine ⟨?_, ?_, ?_⟩
  · rw [he, if_pos rfl]
  · cases Nat.decEq a b with
    | isTrue hab => rw [he, if_pos hab, he, if_pos hab.symm]
    | isFalse hab => rw [he, if_neg hab, he, if_neg (fun hba => hab hba.symm)]
  · cases Nat.decEq a b with
    | isTrue hab =>
      rw [he, if_pos hab]
      exact iff_of_true rfl hab
    | isFalse hab =>
      rw [he, if_neg hab]
      exact iff_of_false (by decide) hab

/-- C8 witness: reflexivity and symmetry at concrete handles. -/
theorem C8_witness :
    pthread_equal 5 5 = 1 ∧ pthread_equal 2 9 = pthread_equal 9 2 :=
  ⟨(C8_equal_refl_symm 5 2 9).1, (C8_equal_refl_symm 5 2 9).2.1⟩

/-- C9: `pthread_create` unconditionally overwrites the caller's thread
out-parameter with the `CreateThread` result — also when that result is the
null handle — and its success check reads that stored value. -/
theorem C9_thread_out_unconditional (env : CreateEnv) (R : Nat → Nat) (A : Nat) :
    (pthread_create env R A).threadOut = env.createThreadResult
    ∧ (pthread_create env R A).ret
      = (if (pthread_create env R A).threadOut ≠ 0 then 0 else ENOMEM) :=
  ⟨rfl, rfl⟩

/-- C10: `pthread_join` with a null `retval` pointer (and a target distinct
from the caller) still waits on the target handle and closes it, returns
`0`, stores nothing, and never calls `GetExitCodeThread`. -/
theorem C10_join_null_retval (env : JoinEnv) (thread : Nat)
    (h : thread ≠ env.currentThread) :
    (pthread_join env thread false).ret = 0
    ∧ (pthread_join env thread false).retval = none
    ∧ (pthread_join env thread false).calls
      = [NativeCall.getCurrentThread, NativeCall.waitForSingleObject thread,
         NativeCall.closeHandle thread] := by
  rw [pthread_join_of_ne env thread false h]
  exact ⟨rfl, rfl, rfl⟩

/-- C10 witness: concrete join with null retval on a non-self handle. -/
theorem C10_witness :
    (pthread_join ⟨7, 42⟩ 9 false).ret = 0
    ∧ (pthread_join ⟨7, 42⟩ 9 false).retval = none
    ∧ (pthread_join ⟨7, 42⟩ 9 false).calls
      = [NativeCall.getCurrentThread, NativeCall.waitForSingleObject 9,
         NativeCall.closeHandle 9] :=
  C10_join_null_retval ⟨7, 42⟩ 9 (by decide)

end PthreadCompat
